import Mathlib

/-
A shallow embedding of the MIPS stack unwinder of rust-minidump
(src/minidump-processor/src/stackwalker/mips.rs), together with theorems
checking the natural-language specification against it.

Machine integers are modelled as Nat with explicit bounds: u32 arithmetic
carries `% 4294967296` (2^32) and overflow checks against that bound, u64
carries `% 18446744073709551616` (2^64).  Types that the unwinder consumes
from the surrounding crates (register contexts, stack-memory reads, module
lookup, the symbol provider) are modelled from the spec where marked; the
unwinder's own control flow is translated line by line from the source.
-/

namespace Minidump

/-- `STACK_POINTER` constant from the source (mips.rs line 19). -/
def STACK_POINTER : String := "sp"

/-- `PROGRAM_COUNTER` constant from the source (mips.rs line 20). -/
def PROGRAM_COUNTER : String := "pc"

/-- `CALLEE_SAVED_REGS` constant from the source (mips.rs lines 21-23).
Note that the list literally contains `"sp"`. -/
def CALLEE_SAVED_REGS : List String :=
  ["s0", "s1", "s2", "s3", "s4", "s5", "s6", "s7", "gp", "sp", "fp"]

/-- Modelled from the spec: the raw MIPS register context (`CONTEXT_MIPS`
from the minidump crate, outside src/) as a named-register store of u64
values plus the context-flags field.  Spec section 3: "RegisterContext: a
named-register store for one architecture". -/
structure MipsContext where
  context_flags : Nat
  regs : String → Nat

/-- Modelled from the spec: `get_register_always(name) -> value` on the
64-bit context (spec section 4.1). -/
def MipsContext.get_register_always (c : MipsContext) (reg : String) : Nat :=
  c.regs reg

/-- Modelled from the spec: `set_register(name, value)` on the 64-bit
context; stores the value as a u64 (spec section 4.1). -/
def MipsContext.set_register (c : MipsContext) (reg : String) (val : Nat) :
    MipsContext :=
  { c with regs := fun r => if r = reg then val % 18446744073709551616 else c.regs r }

/-- Modelled from the spec: `CONTEXT_MIPS::default()`, the all-zero register
context used by the scan unwinders to build a fresh caller context. -/
def MipsContext.default : MipsContext :=
  { context_flags := 0, regs := fun _ => 0 }

/-- `MinidumpContextValidity` from the minidump crate: either all registers
are valid or an explicit set of valid register names (spec section 3,
"ValidityMask").  The HashSet of the source is modelled as a list. -/
inductive MinidumpContextValidity where
  | all
  | some (which : List String)

/-- Modelled from the spec: `get_register(name, validity) -> Option value`
(spec section 4.1): the value is returned only when the validity mask knows
the register. -/
def MipsContext.get_register (c : MipsContext) (reg : String)
    (valid : MinidumpContextValidity) : Option Nat :=
  match valid with
  | .all => some (c.get_register_always reg)
  | .some which =>
    if which.contains reg then some (c.get_register_always reg) else none

/-- `Mips32Context` from the source (mips.rs lines 326-327): a wrapper
around the 64-bit context presenting 32-bit registers. -/
structure Mips32Context where
  inner : MipsContext

/-- 32-bit `get_register_always` from the source (mips.rs lines 334-336):
the inner 64-bit value truncated to u32 (`as u32`). -/
def Mips32Context.get_register_always (c : Mips32Context) (reg : String) : Nat :=
  c.inner.get_register_always reg % 4294967296

/-- 32-bit `set_register` from the source (mips.rs lines 338-340): the u32
value widened into the inner 64-bit store. -/
def Mips32Context.set_register (c : Mips32Context) (reg : String) (val : Nat) :
    Mips32Context :=
  ⟨c.inner.set_register reg (val % 4294967296)⟩

/-- Modelled from the spec: the validity-gated register read on the 32-bit
variant (spec section 4.1), with the truncating always-read of the source. -/
def Mips32Context.get_register (c : Mips32Context) (reg : String)
    (valid : MinidumpContextValidity) : Option Nat :=
  match valid with
  | .all => some (c.get_register_always reg)
  | .some which =>
    if which.contains reg then some (c.get_register_always reg) else none

/-- `MinidumpRawContext` restricted to the one variant this file builds
(`MinidumpRawContext::Mips`). -/
inductive MinidumpRawContext where
  | mips (ctx : MipsContext)

/-- `MinidumpContext` from the minidump crate: raw registers plus validity. -/
structure MinidumpContext where
  raw : MinidumpRawContext
  valid : MinidumpContextValidity

/-- Modelled from the spec: the instruction-pointer accessor of a context
(for MIPS, the register named "pc"). -/
def MinidumpContext.get_instruction_pointer (c : MinidumpContext) : Nat :=
  match c.raw with
  | .mips m => m.get_register_always PROGRAM_COUNTER

/-- Modelled from the spec: the stack-pointer accessor of a context
(for MIPS, the register named "sp"). -/
def MinidumpContext.get_stack_pointer (c : MinidumpContext) : Nat :=
  match c.raw with
  | .mips m => m.get_register_always STACK_POINTER

/-- `FrameTrust` from minidump-processor (spec section 3): confidence
ranking of a reconstructed frame. -/
inductive FrameTrust where
  | none
  | scan
  | cfiScan
  | framePointer
  | callFrameInfo
  | prewalked
  | context
deriving DecidableEq

/-- Modelled from the spec: `StackFrame` (spec section 3): instruction
address, register context with validity, trust level, optional
parameter-size hint. -/
structure StackFrame where
  instruction : Nat
  context : MinidumpContext
  trust : FrameTrust
  parameter_size : Option Nat

/-- Modelled from the spec: `StackFrame::from_context`: a fresh frame whose
instruction address is the context's instruction pointer. -/
def StackFrame.from_context (context : MinidumpContext) (trust : FrameTrust) :
    StackFrame :=
  { instruction := context.get_instruction_pointer
    context := context
    trust := trust
    parameter_size := none }

/-- Modelled from the spec: the stack-memory image (spec section 3,
"StackMemoryImage"): typed reads of a u32 or u64 at an absolute address
that fail cleanly out of range.  The width contracts of the typed reads are
carried as bounds. -/
structure MinidumpMemory where
  get32 : Nat → Option Nat
  get64 : Nat → Option Nat
  get32_lt : ∀ a v, get32 a = some v → v < 4294967296
  get64_lt : ∀ a v, get64 a = some v → v < 18446744073709551616

/-- Modelled from the spec: a loaded code module; only its identity matters
to this core. -/
structure Module where
  base_address : Nat

/-- Modelled from the spec: the module list, consumed only through
"module containing address" lookup (spec section 6). -/
structure MinidumpModuleList where
  module_at_address : Nat → Option Module

/-- `CfiStackWalker` as built by `get_caller_by_cfi` (mips.rs lines 48-63),
generic over the context type like the source. -/
structure CfiStackWalker (C : Type) where
  instruction : Nat
  has_grand_callee : Bool
  grand_callee_parameter_size : Nat
  callee_ctx : C
  callee_validity : MinidumpContextValidity
  caller_ctx : C
  caller_validity : List String
  stack_memory : MinidumpMemory

/-- Modelled from the spec: the external symbol provider (spec section 6):
CFI evaluation per context width (mutation of the walker modelled as
returning an updated walker, failure as none) and the instruction
plausibility judgement. -/
structure SymbolProvider where
  walkFrame32 : Module → CfiStackWalker Mips32Context → Option (CfiStackWalker Mips32Context)
  walkFrame64 : Module → CfiStackWalker MipsContext → Option (CfiStackWalker MipsContext)
  instruction_seems_valid_by_symbols : Nat → MinidumpModuleList → Bool

/-- `SystemInfo` is received and ignored by the unwinder. -/
structure SystemInfo

/-- `callee_forwarded_regs` from the source (mips.rs lines 87-96). -/
def callee_forwarded_regs (valid : MinidumpContextValidity) : List String :=
  match valid with
  | .all => CALLEE_SAVED_REGS
  | .some which => CALLEE_SAVED_REGS.filter (fun reg => which.contains reg)

/-- The `CfiStackWalker` value built in `get_caller_by_cfi`
(mips.rs lines 45-63), factored out so theorems can name it. -/
def cfiWalkerOf {C : Type} (ctx : C) (callee : StackFrame)
    (grand_callee : Option StackFrame) (stack_memory : MinidumpMemory) :
    CfiStackWalker C :=
  { instruction := callee.instruction
    has_grand_callee := grand_callee.isSome
    grand_callee_parameter_size := (grand_callee.bind StackFrame.parameter_size).getD 0
    callee_ctx := ctx
    callee_validity := callee.context.valid
    caller_ctx := ctx
    caller_validity := callee_forwarded_regs callee.context.valid
    stack_memory := stack_memory }

/-- `get_caller_by_cfi` from the source (mips.rs lines 25-85), generic over
the context type; the context operations and the provider's `walk_frame`
are passed explicitly in place of the trait bounds. -/
def get_caller_by_cfi {C : Type}
    (get_register : C → String → MinidumpContextValidity → Option Nat)
    (intoCtx : C → MinidumpRawContext)
    (walkFrame : Module → CfiStackWalker C → Option (CfiStackWalker C))
    (ctx : C) (callee : StackFrame) (grand_callee : Option StackFrame)
    (stack_memory : MinidumpMemory) (modules : MinidumpModuleList) :
    Option StackFrame :=
  match get_register ctx STACK_POINTER callee.context.valid with
  | Option.none => none
  | Option.some _last_sp =>
    match modules.module_at_address callee.instruction with
    | Option.none => none
    | Option.some module =>
      match walkFrame module (cfiWalkerOf ctx callee grand_callee stack_memory) with
      | Option.none => none
      | Option.some stack_walker =>
        some (StackFrame.from_context
          { raw := intoCtx stack_walker.caller_ctx
            valid := MinidumpContextValidity.some stack_walker.caller_validity }
          FrameTrust.callFrameInfo)

/-- Rust's `u32::checked_add` on in-range operands. -/
def checkedAdd32 (a b : Nat) : Option Nat :=
  if a + b < 4294967296 then some (a + b) else none

/-- Rust's `u64::checked_add` on in-range operands. -/
def checkedAdd64 (a b : Nat) : Option Nat :=
  if a + b < 18446744073709551616 then some (a + b) else none

/-- `instruction_seems_valid` from the source (mips.rs lines 226-239). -/
def instruction_seems_valid (instruction : Nat) (modules : MinidumpModuleList)
    (symbol_provider : SymbolProvider) : Bool :=
  if instruction < 0x1000 then false
  else symbol_provider.instruction_seems_valid_by_symbols instruction modules

/-- The caller frame built on scan acceptance (mips.rs lines 149-161 and
207-219, identical in both scan variants): a default context with only pc
and sp set, validity exactly {pc, sp}, trust `Scan`. -/
def scanFrame (caller_pc caller_sp : Nat) : StackFrame :=
  StackFrame.from_context
    { raw := MinidumpRawContext.mips
        ((MipsContext.default.set_register PROGRAM_COUNTER caller_pc).set_register
          STACK_POINTER caller_sp)
      valid := MinidumpContextValidity.some [PROGRAM_COUNTER, STACK_POINTER] }
    FrameTrust.scan

/-- The scan loop of `get_caller_by_scan32` (mips.rs lines 133-163): word
index `i` with `fuel` words remaining; a failed checked addition or a
failed memory read aborts the whole scan (the source's `?`). -/
def scanLoop32 (stack_memory : MinidumpMemory) (modules : MinidumpModuleList)
    (symbol_provider : SymbolProvider) (last_sp : Nat) :
    Nat → Nat → Option StackFrame
  | _i, 0 => none
  | i, fuel + 1 =>
    match checkedAdd32 last_sp (i * 4) with
    | Option.none => none
    | Option.some address_of_pc =>
      match stack_memory.get32 address_of_pc with
      | Option.none => none
      | Option.some caller_pc =>
        if instruction_seems_valid caller_pc modules symbol_provider then
          match checkedAdd32 address_of_pc 4 with
          | Option.none => none
          | Option.some caller_sp => some (scanFrame caller_pc caller_sp)
        else
          scanLoop32 stack_memory modules symbol_provider last_sp (i + 1) fuel

/-- `get_caller_by_scan32` from the source (mips.rs lines 98-166):
MAX_STACK_SIZE = 1024, POINTER_WIDTH = 4, MIN_ARGS = 4; for a non-Context
callee the start is advanced by MIN_ARGS * POINTER_WIDTH = 16 bytes
(checked) and the word count shrinks by MIN_ARGS. -/
def get_caller_by_scan32 (ctx : Mips32Context) (callee : StackFrame)
    (stack_memory : MinidumpMemory) (modules : MinidumpModuleList)
    (symbol_provider : SymbolProvider) : Option StackFrame :=
  match ctx.get_register STACK_POINTER callee.context.valid with
  | Option.none => none
  | Option.some last_sp =>
    if callee.trust ≠ FrameTrust.context then
      match checkedAdd32 last_sp (4 * 4) with
      | Option.none => none
      | Option.some moved_sp =>
        scanLoop32 stack_memory modules symbol_provider moved_sp 0 (1024 / 4 - 4)
    else
      scanLoop32 stack_memory modules symbol_provider last_sp 0 (1024 / 4)

/-- The scan loop of `get_caller_by_scan64` (mips.rs lines 192-221). -/
def scanLoop64 (stack_memory : MinidumpMemory) (modules : MinidumpModuleList)
    (symbol_provider : SymbolProvider) (last_sp : Nat) :
    Nat → Nat → Option StackFrame
  | _i, 0 => none
  | i, fuel + 1 =>
    match checkedAdd64 last_sp (i * 8) with
    | Option.none => none
    | Option.some address_of_pc =>
      match stack_memory.get64 address_of_pc with
      | Option.none => none
      | Option.some caller_pc =>
        if instruction_seems_valid caller_pc modules symbol_provider then
          match checkedAdd64 address_of_pc 8 with
          | Option.none => none
          | Option.some caller_sp => some (scanFrame caller_pc caller_sp)
        else
          scanLoop64 stack_memory modules symbol_provider last_sp (i + 1) fuel

/-- `get_caller_by_scan64` from the source (mips.rs lines 168-224):
MAX_STACK_SIZE = 1024, POINTER_WIDTH = 8, no argument-spill adjustment. -/
def get_caller_by_scan64 (ctx : MipsContext) (callee : StackFrame)
    (stack_memory : MinidumpMemory) (modules : MinidumpModuleList)
    (symbol_provider : SymbolProvider) : Option StackFrame :=
  match ctx.get_register STACK_POINTER callee.context.valid with
  | Option.none => none
  | Option.some last_sp =>
    scanLoop64 stack_memory modules symbol_provider last_sp 0 (1024 / 8)

/-- Modelled from the spec: the context-flags test for the wide (64-bit)
register variant (spec sections 4.1 and 6: "a flags field whose bits
indicate the wide-register variant"); the concrete bit position belongs to
the wire format outside the reimplemented core. -/
def context_flags_is_mips64 (flags : Nat) : Bool :=
  Nat.testBit flags 19

/-- `Mips32Context::try_from` (mips.rs lines 367-377): 64-bit contexts are
returned unchanged in the error branch. -/
def Mips32Context.try_from (ctx : MipsContext) : Except MipsContext Mips32Context :=
  if context_flags_is_mips64 ctx.context_flags then .error ctx else .ok ⟨ctx⟩

/-- `IntoRawContext` impl for `Mips32Context` (mips.rs lines 351-355). -/
def Mips32Context.into_ctx (c : Mips32Context) : MinidumpRawContext :=
  .mips c.inner

/-- `IntoRawContext` impl for `MipsContext` (mips.rs lines 361-365). -/
def MipsContext.into_ctx (c : MipsContext) : MinidumpRawContext :=
  .mips c

/-- The strategy phase of `get_caller_frame` (mips.rs lines 255-281): try
CFI with the width-resolved context, fall back to the width-matching scan.
The source's two sequential `if frame.is_none()` blocks match on the same
resolved context, so they collapse to one match per variant. -/
def unwind_result (self : MipsContext) (callee : StackFrame)
    (grand_callee : Option StackFrame) (stack : MinidumpMemory)
    (modules : MinidumpModuleList) (syms : SymbolProvider) : Option StackFrame :=
  match Mips32Context.try_from self with
  | .ok mips32 =>
    match get_caller_by_cfi Mips32Context.get_register Mips32Context.into_ctx
        syms.walkFrame32 mips32 callee grand_callee stack modules with
    | Option.some f => some f
    | Option.none => get_caller_by_scan32 mips32 callee stack modules syms
  | .error mips64 =>
    match get_caller_by_cfi MipsContext.get_register MipsContext.into_ctx
        syms.walkFrame64 mips64 callee grand_callee stack modules with
    | Option.some f => some f
    | Option.none => get_caller_by_scan64 mips64 callee stack modules syms

/-- `get_caller_frame` from the source (mips.rs lines 243-321): strategy
phase, then the near-null check, the stack-progress check with the leaf
exception, and the return-address adjustment by 8. -/
def get_caller_frame (self : MipsContext) (callee : StackFrame)
    (grand_callee : Option StackFrame) (stack_memory : Option MinidumpMemory)
    (modules : MinidumpModuleList) (_system_info : SystemInfo)
    (syms : SymbolProvider) : Option StackFrame :=
  match stack_memory with
  | Option.none => none
  | Option.some stack =>
    match unwind_result self callee grand_callee stack modules syms with
    | Option.none => none
    | Option.some frame =>
      if frame.context.get_instruction_pointer < 4096 then none
      else
        let sp := frame.context.get_stack_pointer
        let last_sp := self.get_register_always STACK_POINTER
        if sp ≤ last_sp ∧ ¬(callee.trust = FrameTrust.context ∧ sp = last_sp) then
          none
        else
          some { frame with instruction := frame.context.get_instruction_pointer - 8 }

/-! ## Helper lemmas -/

theorem checkedAdd32_none_iff (a b : Nat) :
    checkedAdd32 a b = none ↔ 4294967296 ≤ a + b := by
  unfold checkedAdd32
  split <;> rename_i hc <;> simp <;> omega

theorem checkedAdd64_none_iff (a b : Nat) :
    checkedAdd64 a b = none ↔ 18446744073709551616 ≤ a + b := by
  unfold checkedAdd64
  split <;> rename_i hc <;> simp <;> omega

theorem checkedAdd32_some {a b c : Nat} (h : checkedAdd32 a b = some c) :
    c = a + b ∧ a + b < 4294967296 := by
  unfold checkedAdd32 at h
  split at h <;> rename_i hc
  · exact ⟨(Option.some.injEq _ _ ▸ h).symm, hc⟩
  · exact Option.noConfusion h

theorem checkedAdd64_some {a b c : Nat} (h : checkedAdd64 a b = some c) :
    c = a + b ∧ a + b < 18446744073709551616 := by
  unfold checkedAdd64 at h
  split at h <;> rename_i hc
  · exact ⟨(Option.some.injEq _ _ ▸ h).symm, hc⟩
  · exact Option.noConfusion h

theorem scanFrame_trust (pc sp : Nat) : (scanFrame pc sp).trust = FrameTrust.scan := rfl

theorem scanFrame_valid (pc sp : Nat) :
    (scanFrame pc sp).context.valid =
      MinidumpContextValidity.some [PROGRAM_COUNTER, STACK_POINTER] := rfl

theorem scanFrame_ip (pc sp : Nat) :
    (scanFrame pc sp).context.get_instruction_pointer =
      pc % 18446744073709551616 := rfl

theorem scanFrame_sp (pc sp : Nat) :
    (scanFrame pc sp).context.get_stack_pointer =
      sp % 18446744073709551616 := rfl

theorem scanFrame_instruction (pc sp : Nat) :
    (scanFrame pc sp).instruction = pc % 18446744073709551616 := rfl

theorem instruction_seems_valid_ge {v : Nat} {mods : MinidumpModuleList}
    {prov : SymbolProvider} (h : instruction_seems_valid v mods prov = true) :
    4096 ≤ v := by
  unfold instruction_seems_valid at h
  split at h <;> rename_i hc
  · exact Bool.noConfusion h
  · omega

theorem scanLoop32_sound (mem : MinidumpMemory) (mods : MinidumpModuleList)
    (prov : SymbolProvider) (last_sp : Nat) :
    ∀ fuel i f, scanLoop32 mem mods prov last_sp i fuel = some f →
      ∃ A V, mem.get32 A = some V ∧
        instruction_seems_valid V mods prov = true ∧
        V < 4294967296 ∧ A + 4 < 4294967296 ∧ f = scanFrame V (A + 4) := by
  intro fuel
  induction fuel with
  | zero => intro i f h; simp [scanLoop32] at h
  | succ n ih =>
    intro i f h
    rw [scanLoop32] at h
    split at h
    · exact Option.noConfusion h
    · rename_i A hA
      split at h
      · exact Option.noConfusion h
      · rename_i V hV
        split at h
        · rename_i hval
          split at h
          · exact Option.noConfusion h
          · rename_i caller_sp hS
            obtain ⟨hEq, hlt⟩ := checkedAdd32_some hS
            injection h with h'
            exact ⟨A, V, hV, hval, mem.get32_lt A V hV, hlt, by rw [← h', hEq]⟩
        · exact ih (i + 1) f h

theorem scanLoop64_sound (mem : MinidumpMemory) (mods : MinidumpModuleList)
    (prov : SymbolProvider) (last_sp : Nat) :
    ∀ fuel i f, scanLoop64 mem mods prov last_sp i fuel = some f →
      ∃ A V, mem.get64 A = some V ∧
        instruction_seems_valid V mods prov = true ∧
        V < 18446744073709551616 ∧ A + 8 < 18446744073709551616 ∧
        f = scanFrame V (A + 8) := by
  intro fuel
  induction fuel with
  | zero => intro i f h; simp [scanLoop64] at h
  | succ n ih =>
    intro i f h
    rw [scanLoop64] at h
    split at h
    · exact Option.noConfusion h
    · rename_i A hA
      split at h
      · exact Option.noConfusion h
      · rename_i V hV
        split at h
        · rename_i hval
          split at h
          · exact Option.noConfusion h
          · rename_i caller_sp hS
            obtain ⟨hEq, hlt⟩ := checkedAdd64_some hS
            injection h with h'
            exact ⟨A, V, hV, hval, mem.get64_lt A V hV, hlt, by rw [← h', hEq]⟩
        · exact ih (i + 1) f h

theorem scan32_sound (ctx : Mips32Context) (callee : StackFrame)
    (mem : MinidumpMemory) (mods : MinidumpModuleList) (prov : SymbolProvider)
    (f : StackFrame) (h : get_caller_by_scan32 ctx callee mem mods prov = some f) :
    ∃ A V, mem.get32 A = some V ∧
      instruction_seems_valid V mods prov = true ∧
      V < 4294967296 ∧ A + 4 < 4294967296 ∧ f = scanFrame V (A + 4) := by
  unfold get_caller_by_scan32 at h
  split at h
  · exact Option.noConfusion h
  · rename_i last_sp hreg
    split at h
    · split at h
      · exact Option.noConfusion h
      · exact scanLoop32_sound mem mods prov _ _ _ f h
    · exact scanLoop32_sound mem mods prov _ _ _ f h

theorem scan64_sound (ctx : MipsContext) (callee : StackFrame)
    (mem : MinidumpMemory) (mods : MinidumpModuleList) (prov : SymbolProvider)
    (f : StackFrame) (h : get_caller_by_scan64 ctx callee mem mods prov = some f) :
    ∃ A V, mem.get64 A = some V ∧
      instruction_seems_valid V mods prov = true ∧
      V < 18446744073709551616 ∧ A + 8 < 18446744073709551616 ∧
      f = scanFrame V (A + 8) := by
  unfold get_caller_by_scan64 at h
  split at h
  · exact Option.noConfusion h
  · exact scanLoop64_sound mem mods prov _ _ _ f h

/-- Full characterization of the validation phase of `get_caller_frame`:
given the frame the strategy phase produced, the result is the corrected
frame exactly when the instruction pointer passes the near-null check and
the stack pointer either strictly advances or stays equal on an
initial-context callee. -/
theorem gcf_char (self : MipsContext) (callee : StackFrame)
    (gc : Option StackFrame) (stack : MinidumpMemory)
    (mods : MinidumpModuleList) (si : SystemInfo) (syms : SymbolProvider)
    (frame : StackFrame)
    (h : unwind_result self callee gc stack mods syms = some frame) :
    get_caller_frame self callee gc (some stack) mods si syms =
      if 4096 ≤ frame.context.get_instruction_pointer ∧
          (self.get_register_always STACK_POINTER < frame.context.get_stack_pointer ∨
            (callee.trust = FrameTrust.context ∧
              frame.context.get_stack_pointer = self.get_register_always STACK_POINTER)) then
        some { frame with instruction := frame.context.get_instruction_pointer - 8 }
      else none := by
  simp only [get_caller_frame, h]
  split_ifs with h1 h2 h3 h4 h5
  · exact absurd h2.1 (by omega)
  · rfl
  · rcases h4.2 with hlt | heq
    · exact absurd h3.1 (by omega)
    · exact absurd heq h3.2
  · rfl
  · rfl
  · exfalso
    apply h5
    refine ⟨by omega, ?_⟩
    rcases not_and_or.mp h3 with ha | hb
    · exact Or.inl (by omega)
    · exact Or.inr (not_not.mp hb)

/-! ## Concrete instances used by the witnesses -/

/-- A stack memory whose every u32 and u64 read yields 8192. -/
def memA : MinidumpMemory where
  get32 := fun _ => some 8192
  get64 := fun _ => some 8192
  get32_lt := by intro a v h; simp only [Option.some.injEq] at h; omega
  get64_lt := by intro a v h; simp only [Option.some.injEq] at h; omega

/-- A module list that puts every address inside one module. -/
def modsA : MinidumpModuleList := ⟨fun _ => some ⟨0⟩⟩

/-- A 32-bit raw context with sp = 100 and pc = 5000. -/
def ctxA : MipsContext where
  context_flags := 0
  regs := fun r => if r = "sp" then 100 else if r = "pc" then 5000 else 0

/-- A 32-bit raw context whose sp is close to the u32 bound. -/
def ctxB : MipsContext where
  context_flags := 0
  regs := fun r => if r = "sp" then 4294967288 else if r = "pc" then 5000 else 0

/-- A 32-bit raw context whose raw sp has nonzero upper-32 bits. -/
def ctxC : MipsContext where
  context_flags := 0
  regs := fun r => if r = "sp" then 4294967396 else if r = "pc" then 5000 else 0

/-- A callee frame at the initial-context trust level with all registers valid. -/
def calleeA : StackFrame where
  instruction := 5000
  context := { raw := .mips ctxA, valid := .all }
  trust := .context
  parameter_size := none

/-- A callee frame below the initial-context trust level. -/
def calleeB : StackFrame where
  instruction := 5000
  context := { raw := .mips ctxA, valid := .all }
  trust := .scan
  parameter_size := none

/-- A callee frame whose validity mask lacks the stack pointer. -/
def calleeNoSp : StackFrame where
  instruction := 5000
  context := { raw := .mips ctxA, valid := .some ["pc"] }
  trust := .context
  parameter_size := none

/-- A provider whose CFI evaluation succeeds without changing the seeded
caller context, and that accepts every scanned candidate. -/
def provId : SymbolProvider where
  walkFrame32 := fun _ w => some w
  walkFrame64 := fun _ w => some w
  instruction_seems_valid_by_symbols := fun _ _ => true

/-- A provider whose CFI evaluation always fails and that accepts every
scanned candidate. -/
def provNone : SymbolProvider where
  walkFrame32 := fun _ _ => none
  walkFrame64 := fun _ _ => none
  instruction_seems_valid_by_symbols := fun _ _ => false

/-- A provider whose 32-bit CFI evaluation sets the caller pc to the
near-null value 100. -/
def provLowPc : SymbolProvider where
  walkFrame32 := fun _ w =>
    some { w with caller_ctx := w.caller_ctx.set_register PROGRAM_COUNTER 100 }
  walkFrame64 := fun _ w => some w
  instruction_seems_valid_by_symbols := fun _ _ => false

/-- The CFI frame `provId` produces from `ctxA`/`calleeA`. -/
def frameA : StackFrame :=
  StackFrame.from_context
    { raw := .mips ctxA, valid := .some CALLEE_SAVED_REGS }
    .callFrameInfo

/-- The CFI frame `provLowPc` produces from `ctxA`/`calleeA`: its
instruction pointer is the near-null value 100. -/
def frameLow : StackFrame :=
  StackFrame.from_context
    { raw := .mips (ctxA.set_register PROGRAM_COUNTER 100)
      valid := .some CALLEE_SAVED_REGS }
    .callFrameInfo

/-! ## Claims -/

/-- Claim C1: the spec says the forwarded callee-saved set never contains
the instruction pointer or the stack pointer.  The code violates the sp
half: `CALLEE_SAVED_REGS` (mips.rs line 22) literally lists "sp", while the
source's own comment (mips.rs lines 56-58) states that the stack pointer
and instruction pointer are not included.  This theorem evaluates the code
at the failing input: with an all-valid mask the forwarded set contains
"sp" (and, as claimed, never "pc"). -/
theorem c1_callee_forwarded_contains_sp :
    STACK_POINTER ∈ callee_forwarded_regs MinidumpContextValidity.all ∧
    PROGRAM_COUNTER ∉ callee_forwarded_regs MinidumpContextValidity.all := by
  decide

/-- Claim C2: for every unwind step whose strategy phase produced a
candidate caller frame, the validator emits the (return-address adjusted)
frame exactly when the caller stack pointer strictly exceeds the callee's,
or the callee trust is the initial-context level and the stack pointer is
exactly unchanged; in every other stack-progress situation (equal at lower
trust, or strictly lower at any trust, including Context) the result is
nothing.  The near-null check is the only other gate. -/
theorem c2_stack_progress_validation (self : MipsContext) (callee : StackFrame)
    (gc : Option StackFrame) (stack : MinidumpMemory)
    (mods : MinidumpModuleList) (si : SystemInfo) (syms : SymbolProvider)
    (frame : StackFrame)
    (h : unwind_result self callee gc stack mods syms = some frame) :
    get_caller_frame self callee gc (some stack) mods si syms =
      if 4096 ≤ frame.context.get_instruction_pointer ∧
          (self.get_register_always STACK_POINTER < frame.context.get_stack_pointer ∨
            (callee.trust = FrameTrust.context ∧
              frame.context.get_stack_pointer = self.get_register_always STACK_POINTER)) then
        some { frame with instruction := frame.context.get_instruction_pointer - 8 }
      else none :=
  gcf_char self callee gc stack mods si syms frame h

/-- Witness for C2: with `ctxA` (sp = 100, pc = 5000), an all-valid
Context-trust callee and a succeeding CFI evaluation, the caller stack
pointer equals the callee's and the leaf exception lets the frame
through. -/
theorem c2_stack_progress_validation_witness :
    get_caller_frame ctxA calleeA none (some memA) modsA ⟨⟩ provId =
      some { frameA with instruction := frameA.context.get_instruction_pointer - 8 } := by
  have h := c2_stack_progress_validation ctxA calleeA none memA modsA ⟨⟩ provId frameA rfl
  rw [h, if_pos]
  exact ⟨by decide, Or.inr ⟨rfl, by decide⟩⟩

/-- Claim C3: the CFI unwinder performs no validation of the caller state:
whenever the stack pointer is known, a module covers the callee
instruction and the provider's CFI evaluation succeeds, the unwinder
returns the evaluated caller state as a CallFrameInfo-trust frame with no
condition on its instruction pointer; and the orchestrator afterwards
returns nothing whenever the computed caller frame's instruction pointer
is below 4096, whichever strategy produced it. -/
theorem c3_cfi_no_internal_validation :
    (∀ (C : Type)
        (get_register : C → String → MinidumpContextValidity → Option Nat)
        (intoCtx : C → MinidumpRawContext)
        (walkFrame : Module → CfiStackWalker C → Option (CfiStackWalker C))
        (ctx : C) (callee : StackFrame) (gc : Option StackFrame)
        (mem : MinidumpMemory) (mods : MinidumpModuleList)
        (v : Nat) (m : Module) (w : CfiStackWalker C),
        get_register ctx STACK_POINTER callee.context.valid = some v →
        mods.module_at_address callee.instruction = some m →
        walkFrame m (cfiWalkerOf ctx callee gc mem) = some w →
        get_caller_by_cfi get_register intoCtx walkFrame ctx callee gc mem mods =
          some (StackFrame.from_context
            { raw := intoCtx w.caller_ctx
              valid := MinidumpContextValidity.some w.caller_validity }
            FrameTrust.callFrameInfo)) ∧
    (∀ (self : MipsContext) (callee : StackFrame) (gc : Option StackFrame)
        (stack : MinidumpMemory) (mods : MinidumpModuleList) (si : SystemInfo)
        (syms : SymbolProvider) (frame : StackFrame),
        unwind_result self callee gc stack mods syms = some frame →
        frame.context.get_instruction_pointer < 4096 →
        get_caller_frame self callee gc (some stack) mods si syms = none) := by
  constructor
  · intro C get_register intoCtx walkFrame ctx callee gc mem mods v m w hreg hmod hwalk
    unfold get_caller_by_cfi
    rw [hreg, hmod]
    simp only [hwalk]
  · intro self callee gc stack mods si syms frame hu hip
    rw [gcf_char self callee gc stack mods si syms frame hu, if_neg]
    rintro ⟨h4096, _⟩
    omega

/-- Witness for C3: a provider whose CFI evaluation sets the caller pc to
100 still yields a CallFrameInfo frame from the CFI unwinder, and the
orchestrator then ends the walk. -/
theorem c3_cfi_no_internal_validation_witness :
    get_caller_by_cfi Mips32Context.get_register Mips32Context.into_ctx
        provLowPc.walkFrame32 ⟨ctxA⟩ calleeA none memA modsA = some frameLow ∧
    frameLow.trust = FrameTrust.callFrameInfo ∧
    frameLow.context.get_instruction_pointer = 100 ∧
    get_caller_frame ctxA calleeA none (some memA) modsA ⟨⟩ provLowPc = none := by
  refine ⟨?_, rfl, by decide, ?_⟩
  · exact (c3_cfi_no_internal_validation.1 Mips32Context Mips32Context.get_register
      Mips32Context.into_ctx provLowPc.walkFrame32 ⟨ctxA⟩ calleeA none memA modsA
      100 ⟨0⟩ _ rfl rfl rfl).trans rfl
  · exact c3_cfi_no_internal_validation.2 ctxA calleeA none memA modsA ⟨⟩ provLowPc
      frameLow rfl (by decide)

/-- Claim C4: in the 32-bit scan, a callee whose trust is not the
initial-context level makes scanning begin at the callee stack pointer
plus 16 bytes with a budget of 252 words, while an initial-context callee
scans from the stack pointer itself with the full 256-word budget. -/
theorem c4_scan32_start_and_budget (ctx : Mips32Context) (callee : StackFrame)
    (mem : MinidumpMemory) (mods : MinidumpModuleList) (prov : SymbolProvider)
    (sp0 : Nat)
    (hsp : ctx.get_register STACK_POINTER callee.context.valid = some sp0) :
    (callee.trust ≠ FrameTrust.context → sp0 + 16 < 4294967296 →
      get_caller_by_scan32 ctx callee mem mods prov =
        scanLoop32 mem mods prov (sp0 + 16) 0 252) ∧
    (callee.trust = FrameTrust.context →
      get_caller_by_scan32 ctx callee mem mods prov =
        scanLoop32 mem mods prov sp0 0 256) := by
  constructor
  · intro hne hlt
    have hadd : checkedAdd32 sp0 (4 * 4) = some (sp0 + 16) := by
      unfold checkedAdd32
      rw [if_pos (by omega)]
    simp only [get_caller_by_scan32, hsp]
    rw [if_pos hne, hadd]
  · intro hctx
    simp only [get_caller_by_scan32, hsp]
    rw [if_neg (not_not_intro hctx)]

/-- Witness for C4: with sp = 100, a Scan-trust callee starts at 116 with
252 words and a Context-trust callee starts at 100 with 256 words. -/
theorem c4_scan32_start_and_budget_witness :
    get_caller_by_scan32 ⟨ctxA⟩ calleeB memA modsA provId =
      scanLoop32 memA modsA provId (100 + 16) 0 252 ∧
    get_caller_by_scan32 ⟨ctxA⟩ calleeA memA modsA provId =
      scanLoop32 memA modsA provId 100 0 256 := by
  constructor
  · exact (c4_scan32_start_and_budget ⟨ctxA⟩ calleeB memA modsA provId 100 rfl).1
      (by decide) (by decide)
  · exact (c4_scan32_start_and_budget ⟨ctxA⟩ calleeA memA modsA provId 100 rfl).2 rfl

/-- Claim C5: every accepted scan candidate at stack address A holding
value V yields a frame whose caller stack pointer is exactly A plus one
pointer width (4 bytes for the 32-bit scan, 8 for the 64-bit), whose
caller instruction pointer is V, whose trust is Scan, and whose validity
mask is exactly {pc, sp}. -/
theorem c5_scan_accepted_candidate_frame :
    (∀ (ctx : Mips32Context) (callee : StackFrame) (mem : MinidumpMemory)
        (mods : MinidumpModuleList) (prov : SymbolProvider) (f : StackFrame),
        get_caller_by_scan32 ctx callee mem mods prov = some f →
        ∃ A V, mem.get32 A = some V ∧
          instruction_seems_valid V mods prov = true ∧
          f.trust = FrameTrust.scan ∧
          f.context.get_instruction_pointer = V ∧
          f.context.get_stack_pointer = A + 4 ∧
          f.instruction = V ∧
          f.context.valid =
            MinidumpContextValidity.some [PROGRAM_COUNTER, STACK_POINTER]) ∧
    (∀ (ctx : MipsContext) (callee : StackFrame) (mem : MinidumpMemory)
        (mods : MinidumpModuleList) (prov : SymbolProvider) (f : StackFrame),
        get_caller_by_scan64 ctx callee mem mods prov = some f →
        ∃ A V, mem.get64 A = some V ∧
          instruction_seems_valid V mods prov = true ∧
          f.trust = FrameTrust.scan ∧
          f.context.get_instruction_pointer = V ∧
          f.context.get_stack_pointer = A + 8 ∧
          f.instruction = V ∧
          f.context.valid =
            MinidumpContextValidity.some [PROGRAM_COUNTER, STACK_POINTER]) := by
  constructor
  · intro ctx callee mem mods prov f h
    obtain ⟨A, V, hV, hval, hVlt, hAlt, hf⟩ := scan32_sound ctx callee mem mods prov f h
    subst hf
    refine ⟨A, V, hV, hval, rfl, ?_, ?_, ?_, rfl⟩
    · rw [scanFrame_ip]; exact Nat.mod_eq_of_lt (by omega)
    · rw [scanFrame_sp]; exact Nat.mod_eq_of_lt (by omega)
    · rw [scanFrame_instruction]; exact Nat.mod_eq_of_lt (by omega)
  · intro ctx callee mem mods prov f h
    obtain ⟨A, V, hV, hval, hVlt, hAlt, hf⟩ := scan64_sound ctx callee mem mods prov f h
    subst hf
    refine ⟨A, V, hV, hval, rfl, ?_, ?_, ?_, rfl⟩
    · rw [scanFrame_ip]; exact Nat.mod_eq_of_lt (by omega)
    · rw [scanFrame_sp]; exact Nat.mod_eq_of_lt (by omega)
    · rw [scanFrame_instruction]; exact Nat.mod_eq_of_lt (by omega)

/-- Witness for C5: the 32-bit scan from sp = 100 accepts the candidate
8192 stored at address 100 and produces the frame with stack pointer
100 + 4, instruction pointer 8192, Scan trust and validity {pc, sp}. -/
theorem c5_scan_accepted_candidate_frame_witness :
    get_caller_by_scan32 ⟨ctxA⟩ calleeA memA modsA provId = some (scanFrame 8192 104) ∧
    (scanFrame 8192 104).trust = FrameTrust.scan ∧
    (scanFrame 8192 104).context.get_instruction_pointer = 8192 ∧
    (scanFrame 8192 104).context.get_stack_pointer = 100 + 4 ∧
    (scanFrame 8192 104).context.valid =
      MinidumpContextValidity.some [PROGRAM_COUNTER, STACK_POINTER] := by
  obtain ⟨A, V, hV, hval, htrust, hip, hsp, hinstr, hvalid⟩ :=
    c5_scan_accepted_candidate_frame.1 ⟨ctxA⟩ calleeA memA modsA provId
      (scanFrame 8192 104) rfl
  have hV8192 : V = 8192 := by
    have h8 : Option.some 8192 = some V := hV
    exact (Option.some.injEq _ _ ▸ h8).symm
  have h104 : (scanFrame 8192 104).context.get_stack_pointer = 104 := by decide
  have hA100 : A = 100 := by rw [h104] at hsp; omega
  refine ⟨rfl, htrust, ?_, ?_, hvalid⟩
  · rw [hip, hV8192]
  · rw [hsp, hA100]

/-- Claim C6: every caller frame that survives validation exposes, as its
instruction address, the internally computed caller instruction pointer
minus 8 (the return-address adjustment), always and unconditionally. -/
theorem c6_return_address_adjustment (self : MipsContext) (callee : StackFrame)
    (gc : Option StackFrame) (sm : Option MinidumpMemory)
    (mods : MinidumpModuleList) (si : SystemInfo) (syms : SymbolProvider)
    (f : StackFrame)
    (h : get_caller_frame self callee gc sm mods si syms = some f) :
    f.instruction = f.context.get_instruction_pointer - 8 := by
  cases sm with
  | none => exact Option.noConfusion h
  | some stack =>
    cases hu : unwind_result self callee gc stack mods syms with
    | none => simp [get_caller_frame, hu] at h
    | some frame =>
      rw [gcf_char self callee gc stack mods si syms frame hu] at h
      split at h
      · injection h with h'
        subst h'
        rfl
      · exact Option.noConfusion h

/-- The frame emitted by `get_caller_frame` in the C6 witness scenario. -/
def emittedA : StackFrame :=
  { frameA with instruction := frameA.context.get_instruction_pointer - 8 }

/-- Witness for C6: the frame emitted from `ctxA`/`calleeA` with a
succeeding CFI evaluation carries instruction address pc - 8. -/
theorem c6_return_address_adjustment_witness :
    emittedA.instruction = emittedA.context.get_instruction_pointer - 8 :=
  c6_return_address_adjustment ctxA calleeA none (some memA) modsA ⟨⟩ provId
    emittedA rfl

/-- Claim C7: address additions in the scanners are overflow-checked and an
overflowing addition makes the scan return nothing (both the per-step
address computation and the 32-bit argument-spill advance), and every
emitted frame's instruction pointer was checked to be at least 4096 before
the unchecked subtraction of 8, so that subtraction is exact (its result
plus 8 restores the instruction pointer: no underflow or wrap). -/
theorem c7_checked_arithmetic :
    (∀ a b, checkedAdd32 a b = none ↔ 4294967296 ≤ a + b) ∧
    (∀ a b, checkedAdd64 a b = none ↔ 18446744073709551616 ≤ a + b) ∧
    (∀ (mem : MinidumpMemory) (mods : MinidumpModuleList) (prov : SymbolProvider)
        (last_sp i fuel : Nat), 4294967296 ≤ last_sp + i * 4 →
        scanLoop32 mem mods prov last_sp i fuel = none) ∧
    (∀ (mem : MinidumpMemory) (mods : MinidumpModuleList) (prov : SymbolProvider)
        (last_sp i fuel : Nat), 18446744073709551616 ≤ last_sp + i * 8 →
        scanLoop64 mem mods prov last_sp i fuel = none) ∧
    (∀ (ctx : Mips32Context) (callee : StackFrame) (mem : MinidumpMemory)
        (mods : MinidumpModuleList) (prov : SymbolProvider) (sp0 : Nat),
        ctx.get_register STACK_POINTER callee.context.valid = some sp0 →
        callee.trust ≠ FrameTrust.context → 4294967296 ≤ sp0 + 16 →
        get_caller_by_scan32 ctx callee mem mods prov = none) ∧
    (∀ (self : MipsContext) (callee : StackFrame) (gc : Option StackFrame)
        (sm : Option MinidumpMemory) (mods : MinidumpModuleList)
        (si : SystemInfo) (syms : SymbolProvider) (f : StackFrame),
        get_caller_frame self callee gc sm mods si syms = some f →
        4096 ≤ f.context.get_instruction_pointer ∧
        f.instruction + 8 = f.context.get_instruction_pointer) := by
  refine ⟨checkedAdd32_none_iff, checkedAdd64_none_iff, ?_, ?_, ?_, ?_⟩
  · intro mem mods prov last_sp i fuel hge
    cases fuel with
    | zero => rfl
    | succ n =>
      rw [scanLoop32, (checkedAdd32_none_iff _ _).mpr hge]
  · intro mem mods prov last_sp i fuel hge
    cases fuel with
    | zero => rfl
    | succ n =>
      rw [scanLoop64, (checkedAdd64_none_iff _ _).mpr hge]
  · intro ctx callee mem mods prov sp0 hreg hne hge
    simp only [get_caller_by_scan32, hreg]
    rw [if_pos hne, (checkedAdd32_none_iff _ _).mpr (by omega)]
  · intro self callee gc sm mods si syms f h
    cases sm with
    | none => exact Option.noConfusion h
    | some stack =>
      cases hu : unwind_result self callee gc stack mods syms with
      | none => simp [get_caller_frame, hu] at h
      | some frame =>
        rw [gcf_char self callee gc stack mods si syms frame hu] at h
        split at h
        · rename_i hcond
          injection h with h'
          subst h'
          refine ⟨hcond.1, ?_⟩
          show (frame.context.get_instruction_pointer - 8) + 8 =
            frame.context.get_instruction_pointer
          have := hcond.1
          omega
        · exact Option.noConfusion h

/-- Witness for C7: concrete overflowing additions abort the scans, and a
concretely emitted frame satisfies the exact-subtraction property. -/
theorem c7_checked_arithmetic_witness :
    checkedAdd32 4294967295 1 = none ∧
    checkedAdd64 18446744073709551615 1 = none ∧
    scanLoop32 memA modsA provId 4294967296 0 252 = none ∧
    scanLoop64 memA modsA provId 18446744073709551616 0 128 = none ∧
    get_caller_by_scan32 ⟨ctxB⟩ calleeB memA modsA provId = none ∧
    (4096 ≤ emittedA.context.get_instruction_pointer ∧
      emittedA.instruction + 8 = emittedA.context.get_instruction_pointer) := by
  refine ⟨?_, ?_, ?_, ?_, ?_, ?_⟩
  · exact (c7_checked_arithmetic.1 4294967295 1).mpr (by decide)
  · exact (c7_checked_arithmetic.2.1 18446744073709551615 1).mpr (by decide)
  · exact c7_checked_arithmetic.2.2.1 memA modsA provId 4294967296 0 252 (by decide)
  · exact c7_checked_arithmetic.2.2.2.1 memA modsA provId 18446744073709551616 0 128
      (by decide)
  · exact c7_checked_arithmetic.2.2.2.2.1 ⟨ctxB⟩ calleeB memA modsA provId 4294967288
      rfl (by decide) (by decide)
  · exact c7_checked_arithmetic.2.2.2.2.2 ctxA calleeA none (some memA) modsA ⟨⟩
      provId emittedA rfl

/-- Claim C8: a callee whose validity mask (an explicit register set) does
not include the stack pointer makes the CFI unwinder and both scan
unwinders return nothing, for every memory, module list and symbol
provider (so no provider call or memory read can influence the result). -/
theorem c8_unknown_stack_pointer_guard (which : List String) (callee : StackFrame)
    (hsp : which.contains STACK_POINTER = false)
    (hv : callee.context.valid = MinidumpContextValidity.some which)
    (m32 : Mips32Context) (m64 : MipsContext) (mem : MinidumpMemory)
    (mods : MinidumpModuleList) (syms : SymbolProvider) (gc : Option StackFrame) :
    get_caller_by_cfi Mips32Context.get_register Mips32Context.into_ctx
        syms.walkFrame32 m32 callee gc mem mods = none ∧
    get_caller_by_cfi MipsContext.get_register MipsContext.into_ctx
        syms.walkFrame64 m64 callee gc mem mods = none ∧
    get_caller_by_scan32 m32 callee mem mods syms = none ∧
    get_caller_by_scan64 m64 callee mem mods syms = none := by
  have hnotmem : STACK_POINTER ∉ which := by simpa using hsp
  refine ⟨?_, ?_, ?_, ?_⟩
  · simp [get_caller_by_cfi, Mips32Context.get_register, hv, hnotmem]
  · simp [get_caller_by_cfi, MipsContext.get_register, hv, hnotmem]
  · simp [get_caller_by_scan32, Mips32Context.get_register, hv, hnotmem]
  · simp [get_caller_by_scan64, MipsContext.get_register, hv, hnotmem]

/-- Witness for C8: a callee frame whose validity mask is {"pc"} makes all
three unwinders return nothing. -/
theorem c8_unknown_stack_pointer_guard_witness :
    get_caller_by_cfi Mips32Context.get_register Mips32Context.into_ctx
        provId.walkFrame32 ⟨ctxA⟩ calleeNoSp none memA modsA = none ∧
    get_caller_by_cfi MipsContext.get_register MipsContext.into_ctx
        provId.walkFrame64 ctxA calleeNoSp none memA modsA = none ∧
    get_caller_by_scan32 ⟨ctxA⟩ calleeNoSp memA modsA provId = none ∧
    get_caller_by_scan64 ctxA calleeNoSp memA modsA provId = none :=
  c8_unknown_stack_pointer_guard ["pc"] calleeNoSp (by decide) rfl ⟨ctxA⟩ ctxA
    memA modsA provId none

/-- Claim C9: the validator compares against the callee's full raw 64-bit
stack-pointer register while the 32-bit scan computes with the value
truncated to 32 bits; hence on a context resolved to the 32-bit variant
whose raw stack pointer has nonzero upper-32 bits, once CFI yields nothing
every scan-produced caller frame (its stack pointer being below 2^32)
fails the stack-progress check and the walk terminates. -/
theorem c9_width_mismatch_terminates (self : MipsContext) (callee : StackFrame)
    (gc : Option StackFrame) (mem : MinidumpMemory) (mods : MinidumpModuleList)
    (si : SystemInfo) (syms : SymbolProvider)
    (h32 : context_flags_is_mips64 self.context_flags = false)
    (hsp : 4294967296 ≤ self.get_register_always STACK_POINTER)
    (hcfi : get_caller_by_cfi Mips32Context.get_register Mips32Context.into_ctx
        syms.walkFrame32 ⟨self⟩ callee gc mem mods = none) :
    get_caller_frame self callee gc (some mem) mods si syms = none := by
  have htf : Mips32Context.try_from self = Except.ok ⟨self⟩ := by
    unfold Mips32Context.try_from
    rw [h32]
    rfl
  have hu : unwind_result self callee gc mem mods syms =
      get_caller_by_scan32 ⟨self⟩ callee mem mods syms := by
    unfold unwind_result
    rw [htf]
    simp only [hcfi]
  cases hscan : get_caller_by_scan32 ⟨self⟩ callee mem mods syms with
  | none => simp [get_caller_frame, hu, hscan]
  | some f =>
    obtain ⟨A, V, hV, hval, hVlt, hAlt, hf⟩ :=
      scan32_sound ⟨self⟩ callee mem mods syms f hscan
    rw [gcf_char self callee gc mem mods si syms f (hu.trans hscan), if_neg]
    rintro ⟨hip, hor⟩
    subst hf
    rw [scanFrame_sp, Nat.mod_eq_of_lt (by omega)] at hor
    rcases hor with hlt | ⟨_, heq⟩
    · omega
    · omega

/-- A provider whose CFI evaluation always fails but that accepts every
scanned candidate (so the 32-bit scan does produce a caller frame in the
C9 witness scenario, and the validator rejects it). -/
def provScanOnly : SymbolProvider where
  walkFrame32 := fun _ _ => none
  walkFrame64 := fun _ _ => none
  instruction_seems_valid_by_symbols := fun _ _ => true

/-- Witness for C9: `ctxC` has raw sp = 2^32 + 100 and 32-bit flags; CFI
fails, the scan (working from the truncated sp = 100) accepts 8192, and
the whole step returns nothing. -/
theorem c9_width_mismatch_terminates_witness :
    get_caller_frame ctxC calleeA none (some memA) modsA ⟨⟩ provScanOnly = none :=
  c9_width_mismatch_terminates ctxC calleeA none memA modsA ⟨⟩ provScanOnly
    (by decide) (by decide) rfl

/-- Claim C10: if the stack-memory argument is absent, `get_caller_frame`
returns nothing immediately, for every callee, grand-callee, module list
and symbol provider. -/
theorem c10_missing_stack_memory (self : MipsContext) (callee : StackFrame)
    (gc : Option StackFrame) (mods : MinidumpModuleList) (si : SystemInfo)
    (syms : SymbolProvider) :
    get_caller_frame self callee gc none mods si syms = none := rfl

end Minidump
